import Mathlib

/-
Verification of the geometry factory (ogr/ogrgeometryfactory.cpp):
createFromWkb, createFromWkt, createGeometry, forceToPolygon and
forceToMultiPolygon, as a shallow embedding in Lean 4.

Modelling conventions:
  * Machine integers are Nat / Int with explicit modular arithmetic where
    overflow matters.
  * A WKB buffer (unsigned char *pabyData) is a total function Nat -> Nat
    giving the byte at each offset; the C pointer allows reads at any
    offset, and the embedding records the offsets that the factory layer
    itself dereferences in a trace list, so that claims about which bytes
    are touched are statable.
  * The delegated importers (OGRGeometry::importFromWkb and
    OGRGeometry::importFromWkt), the WKT tokenizer OGRWktReadToken, and the
    spatial reference object are external collaborators, out of scope of
    the factory; they are taken as parameters of the decoders.
  * Error codes OGRERR_* are preprocessor constants of type OGRErr (an
    int); they are modelled as Nat constants.  Only their distinctness
    matters to the factory.
-/

set_option autoImplicit false

namespace OGRFactory

/-- OGRERR_NONE, value 0 in ogr_core.h. -/
def OGRERR_NONE : Nat := 0

/-- OGRERR_NOT_ENOUGH_DATA, value 1 in ogr_core.h. -/
def OGRERR_NOT_ENOUGH_DATA : Nat := 1

/-- OGRERR_UNSUPPORTED_GEOMETRY_TYPE, value 3 in ogr_core.h. -/
def OGRERR_UNSUPPORTED_GEOMETRY_TYPE : Nat := 3

/-- OGRERR_CORRUPT_DATA, value 5 in ogr_core.h. -/
def OGRERR_CORRUPT_DATA : Nat := 5

/-- wkbXDR, big endian byte order marker, value 0. -/
def wkbXDR : Nat := 0

/-- wkbNDR, little endian byte order marker, value 1. -/
def wkbNDR : Nat := 1

/-- wkbPoint geometry type tag, value 1. -/
def wkbPoint : Nat := 1

/-- wkbLineString geometry type tag, value 2. -/
def wkbLineString : Nat := 2

/-- wkbPolygon geometry type tag, value 3. -/
def wkbPolygon : Nat := 3

/-- wkbMultiPoint geometry type tag, value 4. -/
def wkbMultiPoint : Nat := 4

/-- wkbMultiLineString geometry type tag, value 5. -/
def wkbMultiLineString : Nat := 5

/-- wkbMultiPolygon geometry type tag, value 6. -/
def wkbMultiPolygon : Nat := 6

/-- wkbGeometryCollection geometry type tag, value 7. -/
def wkbGeometryCollection : Nat := 7

/-- wkb25DBit, the high bit of the 32-bit geometry type word, marking a
2.5D (Z coordinate) variant; value 0x80000000. -/
def wkb25DBit : Nat := 2147483648

/-- wkbFlatten(x) is the macro ((OGRwkbGeometryType) ((x) AND (NOT wkb25DBit)))
on a 32-bit type word: it clears the high bit, which for a natural number
is reduction modulo 2^31. -/
def wkbFlatten (t : Nat) : Nat := t % wkb25DBit

/-- Modelled from the spec: a linear ring is a linestring-shaped geometry
node owned by a polygon; its coordinate content is opaque to the factory,
so it is modelled as a list of integer coordinate pairs. -/
abbrev OGRLinearRing := List (Int × Int)

/-- Modelled from the spec: the in-memory polymorphic geometry model.  The
seven concrete variants of the class hierarchy; each carries the flag that
makes getGeometryType report the 2.5D tag (wkb25DBit set), container
variants own an ordered list of children, a polygon owns its rings
(exterior ring first, then the interior rings). -/
inductive OGRGeometry where
  | point (is3D : Bool)
  | lineString (is3D : Bool) (pts : List (Int × Int))
  | polygon (is3D : Bool) (rings : List OGRLinearRing)
  | multiPoint (is3D : Bool) (children : List OGRGeometry)
  | multiLineString (is3D : Bool) (children : List OGRGeometry)
  | multiPolygon (is3D : Bool) (children : List OGRGeometry)
  | geometryCollection (is3D : Bool) (children : List OGRGeometry)

/-- Modelled from the spec: the base (flattened) type tag of each concrete
variant, as reported by the getGeometryType virtual of each class. -/
def baseGeometryType : OGRGeometry → Nat
  | .point _ => wkbPoint
  | .lineString _ _ => wkbLineString
  | .polygon _ _ => wkbPolygon
  | .multiPoint _ _ => wkbMultiPoint
  | .multiLineString _ _ => wkbMultiLineString
  | .multiPolygon _ _ => wkbMultiPolygon
  | .geometryCollection _ _ => wkbGeometryCollection

/-- Modelled from the spec: whether the geometry is a 2.5D variant. -/
def geomIs3D : OGRGeometry → Bool
  | .point d => d
  | .lineString d _ => d
  | .polygon d _ => d
  | .multiPoint d _ => d
  | .multiLineString d _ => d
  | .multiPolygon d _ => d
  | .geometryCollection d _ => d

/-- Modelled from the spec: getGeometryType reports the type tag of the
node, with wkb25DBit set on the 2.5D variants. -/
def getGeometryType (g : OGRGeometry) : Nat :=
  if geomIs3D g then baseGeometryType g + wkb25DBit else baseGeometryType g

/-- OGRGeometryFactory::createGeometry, lines 347-379: switch on
wkbFlatten(eGeometryType), returning a newly allocated empty instance of
the matching class for the seven supported kinds, NULL otherwise.  The
cases appear in source order. -/
def createGeometry (eGeometryType : Nat) : Option OGRGeometry :=
  if wkbFlatten eGeometryType = wkbPoint then
    some (OGRGeometry.point false)
  else if wkbFlatten eGeometryType = wkbLineString then
    some (OGRGeometry.lineString false [])
  else if wkbFlatten eGeometryType = wkbPolygon then
    some (OGRGeometry.polygon false [])
  else if wkbFlatten eGeometryType = wkbGeometryCollection then
    some (OGRGeometry.geometryCollection false [])
  else if wkbFlatten eGeometryType = wkbMultiPolygon then
    some (OGRGeometry.multiPolygon false [])
  else if wkbFlatten eGeometryType = wkbMultiPoint then
    some (OGRGeometry.multiPoint false [])
  else if wkbFlatten eGeometryType = wkbMultiLineString then
    some (OGRGeometry.multiLineString false [])
  else
    none

/-- Modelled from the spec: the child list of a container node, as walked
by getNumGeometries / getGeometryRef after the cast to
OGRGeometryCollection in forceToPolygon; empty for non-container nodes. -/
def getGeometries : OGRGeometry → List OGRGeometry
  | .multiPoint _ cs => cs
  | .multiLineString _ cs => cs
  | .multiPolygon _ cs => cs
  | .geometryCollection _ cs => cs
  | _ => []

/-- Modelled from the spec: the ring list of a polygon node (exterior ring
followed by the interior rings); empty for non-polygon nodes. -/
def polygonRings : OGRGeometry → List OGRLinearRing
  | .polygon _ rs => rs
  | _ => []

/-- The ring aggregation loop of forceToPolygon, lines 449-466: for each
child of the container whose flattened type is wkbPolygon, add its
exterior ring and then each interior ring (in order, this is the ring list
of the child) to the accumulating polygon; other children are skipped. -/
def forceToPolygonAggregate (children : List OGRGeometry) : OGRGeometry :=
  OGRGeometry.polygon false
    (children.foldl
      (fun acc c =>
        if wkbFlatten (getGeometryType c) ≠ wkbPolygon then acc
        else acc ++ polygonRings c)
      [])

/-- OGRGeometryFactory::forceToPolygon, lines 438-471.  NULL passes
through; then the guard as written in source: if the flattened type is not
wkbGeometryCollection OR is not wkbMultiPolygon, the input is returned
unchanged; otherwise the rings of all polygon children are aggregated into
one new polygon and the emptied container is destroyed. -/
def forceToPolygon (poGeom : Option OGRGeometry) : Option OGRGeometry :=
  match poGeom with
  | none => none
  | some g =>
    if wkbFlatten (getGeometryType g) ≠ wkbGeometryCollection
        ∨ wkbFlatten (getGeometryType g) ≠ wkbMultiPolygon then
      some g
    else
      some (forceToPolygonAggregate (getGeometries g))

/-- Modelled from the spec: container addGeometry appends the child to the
owned child list, taking ownership of it; on a non-container node it is
not available (identity here, never reached by the factory). -/
def addGeometry (container child : OGRGeometry) : OGRGeometry :=
  match container with
  | .multiPoint d cs => .multiPoint d (cs ++ [child])
  | .multiLineString d cs => .multiLineString d (cs ++ [child])
  | .multiPolygon d cs => .multiPolygon d (cs ++ [child])
  | .geometryCollection d cs => .geometryCollection d (cs ++ [child])
  | g => g

/-- OGRGeometryFactory::forceToMultiPolygon, lines 487-504.  NULL passes
through; a geometry whose flattened type is not wkbPolygon is returned
unchanged; a polygon is added as the sole child of a newly constructed
empty MultiPolygon, which is returned. -/
def forceToMultiPolygon (poGeom : Option OGRGeometry) : Option OGRGeometry :=
  match poGeom with
  | none => none
  | some g =>
    if wkbFlatten (getGeometryType g) ≠ wkbPolygon then
      some g
    else
      some (addGeometry (OGRGeometry.multiPolygon false []) g)

/-- Type of the delegated binary importer OGRGeometry::importFromWkb: it
receives the freshly created geometry, the buffer and the byte bound, and
returns the status together with the (possibly partially) filled
geometry. -/
abbrev WkbImporter := OGRGeometry → (Nat → Nat) → Int → Nat × OGRGeometry

/-- Result of createFromWkb: the returned OGRErr, the output slot
*ppoReturn, the spatial reference attached to the returned geometry (none
when no geometry is returned or poSR was NULL), and the trace of buffer
offsets dereferenced by the factory layer itself, in evaluation order
(reads made inside the delegated importer are not part of this trace). -/
structure WkbResult where
  err : Nat
  ret : Option OGRGeometry
  srs : Option Nat
  reads : List Nat

/-- The tail of createFromWkb from line 168 on: instantiate a geometry of
the appropriate type via createGeometry (NULL yields
OGRERR_UNSUPPORTED_GEOMETRY_TYPE), delegate to importFromWkb, and on
success assign the spatial reference and fill the output slot; on importer
failure delete the geometry and propagate the status. -/
def createFromWkbAfterSniff (importer : WkbImporter) (pabyData : Nat → Nat)
    (poSR : Option Nat) (nBytes : Int) (eGeometryType : Nat) :
    Nat × Option OGRGeometry × Option Nat :=
  match createGeometry eGeometryType with
  | none => (OGRERR_UNSUPPORTED_GEOMETRY_TYPE, none, none)
  | some poGeom =>
    let r := importer poGeom pabyData nBytes
    if r.1 = OGRERR_NONE then
      (OGRERR_NONE, some r.2, poSR)
    else
      (r.1, none, none)

/-- Packaging of the outcome of the post-sniff stage with the read trace
of the factory layer: byte 0 (the marker) and the tag byte offset. -/
def mkWkbResult (r : Nat × Option OGRGeometry × Option Nat)
    (tagOffset : Nat) : WkbResult :=
  ⟨r.1, r.2.1, r.2.2, [0, tagOffset]⟩

/-- OGRGeometryFactory::createFromWkb, lines 116-192.  The output slot is
set to NULL first; a declared byte bound below 5 (and not the unbounded
sentinel -1) fails with OGRERR_NOT_ENOUGH_DATA before any buffer access;
byte 0 is the byte order marker, anything but wkbXDR or wkbNDR logs bytes
0 through 8 via CPLDebug and returns OGRERR_CORRUPT_DATA; the geometry
type tag is the single byte at offset 1 (NDR, lines 159-160) or offset 4
(XDR, lines 161-162); the rest is createFromWkbAfterSniff. -/
def createFromWkb (importer : WkbImporter) (pabyData : Nat → Nat)
    (poSR : Option Nat) (nBytes : Int) : WkbResult :=
  if nBytes < 5 ∧ nBytes ≠ -1 then
    ⟨OGRERR_NOT_ENOUGH_DATA, none, none, []⟩
  else if pabyData 0 ≠ wkbXDR ∧ pabyData 0 ≠ wkbNDR then
    ⟨OGRERR_CORRUPT_DATA, none, none, [0, 0, 1, 2, 3, 4, 5, 6, 7, 8]⟩
  else if pabyData 0 = wkbNDR then
    mkWkbResult (createFromWkbAfterSniff importer pabyData poSR nBytes (pabyData 1)) 1
  else
    mkWkbResult (createFromWkbAfterSniff importer pabyData poSR nBytes (pabyData 4)) 4

/-- Modelled from the spec: CPLString EQUAL, an ASCII case insensitive
string comparison, on strings modelled as lists of characters. -/
def EQUAL (a b : List Char) : Bool :=
  a.map Char.toUpper == b.map Char.toUpper

/-- Type of the delegated text importer OGRGeometry::importFromWkt: it
receives the freshly created geometry and the cursor (the text from the
current position on), and returns the status, the filled geometry and the
advanced cursor (the unconsumed remainder of the text). -/
abbrev WktImporter := OGRGeometry → List Char → Nat × OGRGeometry × List Char

/-- Result of createFromWkt: the returned OGRErr, the output slot
*ppoReturn, the attached spatial reference, and the final value of the
caller cursor *ppszData (the unconsumed text; unchanged on failure). -/
structure WktResult where
  err : Nat
  ret : Option OGRGeometry
  srs : Option Nat
  cursor : List Char

/-- The keyword dispatch of createFromWkt, lines 253-291: the first token
is matched case insensitively (EQUAL) against the seven geometry keywords
in source order and the matching empty instance is constructed; an
unmatched token gives no geometry. -/
def wktGeometryFromToken (szToken : List Char) : Option OGRGeometry :=
  if EQUAL szToken ['P', 'O', 'I', 'N', 'T'] then
    some (OGRGeometry.point false)
  else if EQUAL szToken ['L', 'I', 'N', 'E', 'S', 'T', 'R', 'I', 'N', 'G'] then
    some (OGRGeometry.lineString false [])
  else if EQUAL szToken ['P', 'O', 'L', 'Y', 'G', 'O', 'N'] then
    some (OGRGeometry.polygon false [])
  else if EQUAL szToken ['G', 'E', 'O', 'M', 'E', 'T', 'R', 'Y', 'C', 'O', 'L', 'L', 'E', 'C', 'T', 'I', 'O', 'N'] then
    some (OGRGeometry.geometryCollection false [])
  else if EQUAL szToken ['M', 'U', 'L', 'T', 'I', 'P', 'O', 'L', 'Y', 'G', 'O', 'N'] then
    some (OGRGeometry.multiPolygon false [])
  else if EQUAL szToken ['M', 'U', 'L', 'T', 'I', 'P', 'O', 'I', 'N', 'T'] then
    some (OGRGeometry.multiPoint false [])
  else if EQUAL szToken ['M', 'U', 'L', 'T', 'I', 'L', 'I', 'N', 'E', 'S', 'T', 'R', 'I', 'N', 'G'] then
    some (OGRGeometry.multiLineString false [])
  else
    none

/-- OGRGeometryFactory::createFromWkt, lines 232-313.  The output slot is
set to NULL first; OGRWktReadToken (an external collaborator, passed as
readToken) reads the first token, failure is OGRERR_CORRUPT_DATA; the
token selects the empty geometry via wktGeometryFromToken, no match is
OGRERR_UNSUPPORTED_GEOMETRY_TYPE; importFromWkt fills the geometry from
the local cursor copy pszInput and advances it; only on success are the
spatial reference assigned, the output slot filled and the caller cursor
*ppszData updated to the importer position. -/
def createFromWkt (readToken : List Char → Option (List Char))
    (importer : WktImporter) (input : List Char) (poSR : Option Nat) :
    WktResult :=
  match readToken input with
  | none => ⟨OGRERR_CORRUPT_DATA, none, none, input⟩
  | some szToken =>
    match wktGeometryFromToken szToken with
    | none => ⟨OGRERR_UNSUPPORTED_GEOMETRY_TYPE, none, none, input⟩
    | some poGeom =>
      let r := importer poGeom input
      if r.1 = OGRERR_NONE then
        ⟨OGRERR_NONE, some r.2.1, poSR, r.2.2⟩
      else
        ⟨r.1, none, none, input⟩

/-- Clearing the high bit is idempotent: flattening a flattened tag is the
identity. -/
theorem wkbFlatten_idem (t : Nat) : wkbFlatten (wkbFlatten t) = wkbFlatten t := by
  simp only [wkbFlatten, wkb25DBit]
  omega

/-- Flattening the reported type of a node recovers its base tag: the 2.5D
bit added by getGeometryType is exactly what wkbFlatten removes. -/
theorem wkbFlatten_getGeometryType (g : OGRGeometry) :
    wkbFlatten (getGeometryType g) = baseGeometryType g := by
  have hb : baseGeometryType g < wkb25DBit := by
    cases g <;> simp [baseGeometryType, wkbPoint, wkbLineString, wkbPolygon,
      wkbMultiPoint, wkbMultiLineString, wkbMultiPolygon,
      wkbGeometryCollection, wkb25DBit]
  unfold getGeometryType wkbFlatten
  simp only [wkb25DBit] at hb ⊢
  cases hd : geomIs3D g <;> simp <;> omega

/-- C1: For every input geometry, including NULL which passes through as
NULL, forceToPolygon returns its input unchanged: the guard, flattened
type not equal to wkbGeometryCollection OR flattened type not equal to
wkbMultiPolygon, holds for every type tag because no tag equals both
constants at once, so the ring aggregation branch is unreachable. -/
theorem forceToPolygon_identity (g : Option OGRGeometry) :
    forceToPolygon g = g := by
  cases g with
  | none => rfl
  | some geo =>
    have h : wkbFlatten (getGeometryType geo) ≠ wkbGeometryCollection
        ∨ wkbFlatten (getGeometryType geo) ≠ wkbMultiPolygon := by
      by_cases h7 : wkbFlatten (getGeometryType geo) = wkbGeometryCollection
      · refine Or.inr ?_
        rw [h7]
        simp [wkbGeometryCollection, wkbMultiPolygon]
      · exact Or.inl h7
    simp only [forceToPolygon]
    rw [if_pos h]

/-- C6: createGeometry depends only on the flattened tag; for each of the
seven supported flattened kinds it returns a new empty instance of the
matching concrete variant, and for every flattened tag outside 1..7 it
returns NULL. -/
theorem createGeometry_spec (t : Nat) :
    createGeometry t = createGeometry (wkbFlatten t) ∧
    (wkbFlatten t = wkbPoint →
      createGeometry t = some (OGRGeometry.point false)) ∧
    (wkbFlatten t = wkbLineString →
      createGeometry t = some (OGRGeometry.lineString false [])) ∧
    (wkbFlatten t = wkbPolygon →
      createGeometry t = some (OGRGeometry.polygon false [])) ∧
    (wkbFlatten t = wkbMultiPoint →
      createGeometry t = some (OGRGeometry.multiPoint false [])) ∧
    (wkbFlatten t = wkbMultiLineString →
      createGeometry t = some (OGRGeometry.multiLineString false [])) ∧
    (wkbFlatten t = wkbMultiPolygon →
      createGeometry t = some (OGRGeometry.multiPolygon false [])) ∧
    (wkbFlatten t = wkbGeometryCollection →
      createGeometry t = some (OGRGeometry.geometryCollection false [])) ∧
    ((wkbFlatten t < wkbPoint ∨ wkbGeometryCollection < wkbFlatten t) →
      createGeometry t = none) := by
  refine ⟨?_, ?_, ?_, ?_, ?_, ?_, ?_, ?_, ?_⟩
  · simp only [createGeometry, wkbFlatten_idem]
  · intro h
    simp [createGeometry, h, wkbPoint, wkbLineString, wkbPolygon,
      wkbMultiPoint, wkbMultiLineString, wkbMultiPolygon, wkbGeometryCollection]
  · intro h
    simp [createGeometry, h, wkbPoint, wkbLineString, wkbPolygon,
      wkbMultiPoint, wkbMultiLineString, wkbMultiPolygon, wkbGeometryCollection]
  · intro h
    simp [createGeometry, h, wkbPoint, wkbLineString, wkbPolygon,
      wkbMultiPoint, wkbMultiLineString, wkbMultiPolygon, wkbGeometryCollection]
  · intro h
    simp [createGeometry, h, wkbPoint, wkbLineString, wkbPolygon,
      wkbMultiPoint, wkbMultiLineString, wkbMultiPolygon, wkbGeometryCollection]
  · intro h
    simp [createGeometry, h, wkbPoint, wkbLineString, wkbPolygon,
      wkbMultiPoint, wkbMultiLineString, wkbMultiPolygon, wkbGeometryCollection]
  · intro h
    simp [createGeometry, h, wkbPoint, wkbLineString, wkbPolygon,
      wkbMultiPoint, wkbMultiLineString, wkbMultiPolygon, wkbGeometryCollection]
  · intro h
    simp [createGeometry, h, wkbPoint, wkbLineString, wkbPolygon,
      wkbMultiPoint, wkbMultiLineString, wkbMultiPolygon, wkbGeometryCollection]
  · intro h
    simp only [wkbPoint, wkbGeometryCollection] at h
    simp only [createGeometry, wkbPoint, wkbLineString, wkbPolygon,
      wkbMultiPoint, wkbMultiLineString, wkbMultiPolygon, wkbGeometryCollection]
    rw [if_neg (by omega), if_neg (by omega), if_neg (by omega),
      if_neg (by omega), if_neg (by omega), if_neg (by omega),
      if_neg (by omega)]

/-- C6 witness: createGeometry instantiated on the 2.5D point tag
0x80000001 (flattens to wkbPoint) and on the unsupported tag 100. -/
theorem createGeometry_spec_witness :
    wkbFlatten 2147483649 = wkbPoint ∧
    createGeometry 2147483649 = some (OGRGeometry.point false) ∧
    (wkbFlatten 100 < wkbPoint ∨ wkbGeometryCollection < wkbFlatten 100) ∧
    createGeometry 100 = none := by
  have h1 : wkbFlatten 2147483649 = wkbPoint := by decide
  have h2 : wkbFlatten 100 < wkbPoint ∨ wkbGeometryCollection < wkbFlatten 100 := by
    refine Or.inr ?_
    decide
  exact ⟨h1, (createGeometry_spec 2147483649).2.1 h1, h2,
    (createGeometry_spec 100).2.2.2.2.2.2.2.2 h2⟩

/-- C8: forceToMultiPolygon passes NULL through, returns unchanged every
geometry whose flattened type is not wkbPolygon, and wraps a polygon (2D
or 2.5D, any ring list) as the sole child of a new MultiPolygon, the child
being the input polygon itself with its rings untouched. -/
theorem forceToMultiPolygon_spec :
    forceToMultiPolygon none = none ∧
    (∀ g : OGRGeometry, wkbFlatten (getGeometryType g) ≠ wkbPolygon →
      forceToMultiPolygon (some g) = some g) ∧
    (∀ (d : Bool) (rings : List OGRLinearRing),
      forceToMultiPolygon (some (OGRGeometry.polygon d rings)) =
        some (OGRGeometry.multiPolygon false [OGRGeometry.polygon d rings])) := by
  refine ⟨rfl, ?_, ?_⟩
  · intro g hg
    simp only [forceToMultiPolygon]
    rw [if_pos hg]
  · intro d rings
    have hc : wkbFlatten (getGeometryType (OGRGeometry.polygon d rings)) = wkbPolygon := by
      rw [wkbFlatten_getGeometryType]
      rfl
    simp only [forceToMultiPolygon]
    rw [if_neg (by simp [hc])]
    simp [addGeometry]

/-- C8 witness: a point passes through unchanged, and a 2.5D polygon with
an exterior ring and two interior rings becomes a single child
MultiPolygon with the same three rings on the child. -/
theorem forceToMultiPolygon_spec_witness :
    forceToMultiPolygon (some (OGRGeometry.point false)) =
      some (OGRGeometry.point false) ∧
    forceToMultiPolygon
        (some (OGRGeometry.polygon true [[(0, 0)], [(1, 1)], [(2, 2)]])) =
      some (OGRGeometry.multiPolygon false
        [OGRGeometry.polygon true [[(0, 0)], [(1, 1)], [(2, 2)]]]) := by
  constructor
  · exact forceToMultiPolygon_spec.2.1 (OGRGeometry.point false) (by decide)
  · exact forceToMultiPolygon_spec.2.2 true [[(0, 0)], [(1, 1)], [(2, 2)]]

/-- Every tag whose flattened value lies outside 1..7 falls through the
switch of createGeometry to the default NULL. -/
theorem createGeometry_out_of_range (t : Nat)
    (h : wkbFlatten t < 1 ∨ 7 < wkbFlatten t) : createGeometry t = none := by
  simp only [createGeometry, wkbPoint, wkbLineString, wkbPolygon,
    wkbMultiPoint, wkbMultiLineString, wkbMultiPolygon, wkbGeometryCollection]
  rw [if_neg (by omega), if_neg (by omega), if_neg (by omega),
    if_neg (by omega), if_neg (by omega), if_neg (by omega),
    if_neg (by omega)]

/-- With an admissible bound and a little endian marker, createFromWkb is
the post-sniff stage fed with the byte at offset 1, and the factory layer
reads exactly offsets 0 and 1. -/
theorem createFromWkb_ndr (importer : WkbImporter) (pabyData : Nat → Nat)
    (poSR : Option Nat) (nBytes : Int)
    (hb : ¬ (nBytes < 5 ∧ nBytes ≠ -1)) (hN : pabyData 0 = wkbNDR) :
    createFromWkb importer pabyData poSR nBytes =
      mkWkbResult
        (createFromWkbAfterSniff importer pabyData poSR nBytes (pabyData 1)) 1 := by
  simp only [createFromWkb]
  rw [if_neg hb, if_neg (by simp [hN, wkbXDR, wkbNDR]), if_pos hN]

/-- With an admissible bound and a big endian marker, createFromWkb is the
post-sniff stage fed with the byte at offset 4, and the factory layer
reads exactly offsets 0 and 4. -/
theorem createFromWkb_xdr (importer : WkbImporter) (pabyData : Nat → Nat)
    (poSR : Option Nat) (nBytes : Int)
    (hb : ¬ (nBytes < 5 ∧ nBytes ≠ -1)) (hX : pabyData 0 = wkbXDR) :
    createFromWkb importer pabyData poSR nBytes =
      mkWkbResult
        (createFromWkbAfterSniff importer pabyData poSR nBytes (pabyData 4)) 4 := by
  simp only [createFromWkb]
  rw [if_neg hb, if_neg (by simp [hX, wkbXDR, wkbNDR]),
    if_neg (by simp [hX, wkbXDR, wkbNDR])]

/-- With an admissible bound and a byte 0 that is neither marker,
createFromWkb takes the diagnostic branch: OGRERR_CORRUPT_DATA, NULL
output, and the CPLDebug arguments dereference offsets 0 through 8 after
the marker read of offset 0. -/
theorem createFromWkb_corrupt_eq (importer : WkbImporter)
    (pabyData : Nat → Nat) (poSR : Option Nat) (nBytes : Int)
    (hb : ¬ (nBytes < 5 ∧ nBytes ≠ -1))
    (h0 : pabyData 0 ≠ wkbXDR) (h1 : pabyData 0 ≠ wkbNDR) :
    createFromWkb importer pabyData poSR nBytes =
      ⟨OGRERR_CORRUPT_DATA, none, none, [0, 0, 1, 2, 3, 4, 5, 6, 7, 8]⟩ := by
  simp only [createFromWkb]
  rw [if_neg hb, if_pos ⟨h0, h1⟩]

/-- C3: whenever the byte bound is given (not the -1 sentinel) and is
below 5, createFromWkb returns OGRERR_NOT_ENOUGH_DATA with a NULL output
slot and an empty read trace: no byte of the buffer is dereferenced, the
whole result being a constant independent of the buffer. -/
theorem createFromWkb_notEnoughData (importer : WkbImporter)
    (pabyData : Nat → Nat) (poSR : Option Nat) (nBytes : Int)
    (h5 : nBytes < 5) (hm1 : nBytes ≠ -1) :
    createFromWkb importer pabyData poSR nBytes =
      ⟨OGRERR_NOT_ENOUGH_DATA, none, none, []⟩ := by
  simp only [createFromWkb]
  rw [if_pos ⟨h5, hm1⟩]

/-- C3 witness: bound 3 on an arbitrary buffer. -/
theorem createFromWkb_notEnoughData_witness :
    createFromWkb (fun poGeom _ _ => (OGRERR_NONE, poGeom)) (fun _ => 0)
        none 3 =
      ⟨OGRERR_NOT_ENOUGH_DATA, none, none, []⟩ :=
  createFromWkb_notEnoughData (fun poGeom _ _ => (OGRERR_NONE, poGeom))
    (fun _ => 0) none 3 (by decide) (by decide)

/-- C4: whenever the bound check passes and byte 0 is neither wkbXDR nor
wkbNDR, createFromWkb returns OGRERR_CORRUPT_DATA and leaves the output
slot NULL. -/
theorem createFromWkb_corruptData (importer : WkbImporter)
    (pabyData : Nat → Nat) (poSR : Option Nat) (nBytes : Int)
    (hb : ¬ (nBytes < 5 ∧ nBytes ≠ -1))
    (h0 : pabyData 0 ≠ wkbXDR) (h1 : pabyData 0 ≠ wkbNDR) :
    (createFromWkb importer pabyData poSR nBytes).err = OGRERR_CORRUPT_DATA ∧
    (createFromWkb importer pabyData poSR nBytes).ret = none := by
  rw [createFromWkb_corrupt_eq importer pabyData poSR nBytes hb h0 h1]
  exact ⟨rfl, rfl⟩

/-- C4 witness: bound 5, byte order marker 2. -/
theorem createFromWkb_corruptData_witness :
    (createFromWkb (fun poGeom _ _ => (OGRERR_NONE, poGeom)) (fun _ => 2)
      none 5).err = OGRERR_CORRUPT_DATA ∧
    (createFromWkb (fun poGeom _ _ => (OGRERR_NONE, poGeom)) (fun _ => 2)
      none 5).ret = none :=
  createFromWkb_corruptData (fun poGeom _ _ => (OGRERR_NONE, poGeom))
    (fun _ => 2) none 5 (by decide) (by decide) (by decide)

/-- C5: under a recognized byte order marker, the tag handed to the
registry stage is the single byte at offset 1 when the marker is wkbNDR
and the single byte at offset 4 when it is wkbXDR, and the factory layer
dereferences exactly offset 0 and that tag offset, nothing else of the
logical 4-byte type field. -/
theorem createFromWkb_tagByte (importer : WkbImporter)
    (pabyData : Nat → Nat) (poSR : Option Nat) (nBytes : Int)
    (hb : ¬ (nBytes < 5 ∧ nBytes ≠ -1)) :
    (pabyData 0 = wkbNDR →
      createFromWkb importer pabyData poSR nBytes =
        mkWkbResult
          (createFromWkbAfterSniff importer pabyData poSR nBytes (pabyData 1)) 1 ∧
      (createFromWkb importer pabyData poSR nBytes).reads = [0, 1]) ∧
    (pabyData 0 = wkbXDR →
      createFromWkb importer pabyData poSR nBytes =
        mkWkbResult
          (createFromWkbAfterSniff importer pabyData poSR nBytes (pabyData 4)) 4 ∧
      (createFromWkb importer pabyData poSR nBytes).reads = [0, 4]) := by
  constructor
  · intro hN
    have key := createFromWkb_ndr importer pabyData poSR nBytes hb hN
    exact ⟨key, by rw [key]; rfl⟩
  · intro hX
    have key := createFromWkb_xdr importer pabyData poSR nBytes hb hX
    exact ⟨key, by rw [key]; rfl⟩

/-- C5 witness: an NDR buffer of ones with the unbounded sentinel. -/
theorem createFromWkb_tagByte_witness :
    createFromWkb (fun poGeom _ _ => (OGRERR_NONE, poGeom)) (fun _ => 1)
        none (-1) =
      mkWkbResult
        (createFromWkbAfterSniff (fun poGeom _ _ => (OGRERR_NONE, poGeom))
          (fun _ => 1) none (-1) 1) 1 ∧
    (createFromWkb (fun poGeom _ _ => (OGRERR_NONE, poGeom)) (fun _ => 1)
      none (-1)).reads = [0, 1] :=
  (createFromWkb_tagByte (fun poGeom _ _ => (OGRERR_NONE, poGeom))
    (fun _ => 1) none (-1) (by decide)).1 rfl

/-- C10: on an invalid byte order marker the diagnostic path dereferences
offsets 0 through 8 unconditionally before returning OGRERR_CORRUPT_DATA;
in particular with any declared bound between 5 and 8 it accesses an
offset at or beyond that bound. -/
theorem createFromWkb_corruptDebugReads (importer : WkbImporter)
    (pabyData : Nat → Nat) (poSR : Option Nat) (nBytes : Int)
    (hb : ¬ (nBytes < 5 ∧ nBytes ≠ -1))
    (h0 : pabyData 0 ≠ wkbXDR) (h1 : pabyData 0 ≠ wkbNDR) :
    (createFromWkb importer pabyData poSR nBytes).reads =
      [0, 0, 1, 2, 3, 4, 5, 6, 7, 8] ∧
    (createFromWkb importer pabyData poSR nBytes).err = OGRERR_CORRUPT_DATA ∧
    (5 ≤ nBytes → nBytes ≤ 8 →
      ∃ o ∈ (createFromWkb importer pabyData poSR nBytes).reads,
        nBytes ≤ (o : Int)) := by
  have key := createFromWkb_corrupt_eq importer pabyData poSR nBytes hb h0 h1
  refine ⟨by rw [key], by rw [key], ?_⟩
  intro hlo hhi
  refine ⟨8, ?_, by exact_mod_cast hhi⟩
  rw [key]
  simp

/-- C10 witness: bound 7, byte order marker 255: the trace holds offsets 7
and 8, both at or beyond the declared bound. -/
theorem createFromWkb_corruptDebugReads_witness :
    (createFromWkb (fun poGeom _ _ => (OGRERR_NONE, poGeom)) (fun _ => 255)
      none 7).err = OGRERR_CORRUPT_DATA ∧
    ∃ o ∈ (createFromWkb (fun poGeom _ _ => (OGRERR_NONE, poGeom))
      (fun _ => 255) none 7).reads, (7 : Int) ≤ o := by
  have h := createFromWkb_corruptDebugReads
    (fun poGeom _ _ => (OGRERR_NONE, poGeom)) (fun _ => 255) none 7
    (by decide) (by decide) (by decide)
  exact ⟨h.2.1, h.2.2 (by decide) (by decide)⟩

/-- The seven geometry keywords recognized by createFromWkt at lines
253-291, in source order, uppercase. -/
def supportedWktKeywords : List (List Char) :=
  [['P', 'O', 'I', 'N', 'T'],
   ['L', 'I', 'N', 'E', 'S', 'T', 'R', 'I', 'N', 'G'],
   ['P', 'O', 'L', 'Y', 'G', 'O', 'N'],
   ['G', 'E', 'O', 'M', 'E', 'T', 'R', 'Y', 'C', 'O', 'L', 'L', 'E', 'C', 'T', 'I', 'O', 'N'],
   ['M', 'U', 'L', 'T', 'I', 'P', 'O', 'L', 'Y', 'G', 'O', 'N'],
   ['M', 'U', 'L', 'T', 'I', 'P', 'O', 'I', 'N', 'T'],
   ['M', 'U', 'L', 'T', 'I', 'L', 'I', 'N', 'E', 'S', 'T', 'R', 'I', 'N', 'G']]

/-- C2: when the delegated importer fails, both decoders propagate its
status verbatim, leave the output slot NULL (the partial geometry is
destroyed, not returned), and createFromWkt leaves the caller cursor at
its original position: failure is atomic for all caller visible state. -/
theorem decoders_failure_atomic :
    (∀ (importer : WkbImporter) (pabyData : Nat → Nat) (poSR : Option Nat)
        (nBytes : Int) (poGeom filled : OGRGeometry) (e : Nat),
      ¬ (nBytes < 5 ∧ nBytes ≠ -1) →
      (pabyData 0 = wkbXDR ∨ pabyData 0 = wkbNDR) →
      createGeometry (pabyData (if pabyData 0 = wkbNDR then 1 else 4)) =
        some poGeom →
      importer poGeom pabyData nBytes = (e, filled) →
      e ≠ OGRERR_NONE →
      (createFromWkb importer pabyData poSR nBytes).err = e ∧
      (createFromWkb importer pabyData poSR nBytes).ret = none) ∧
    (∀ (readToken : List Char → Option (List Char)) (importer : WktImporter)
        (input : List Char) (poSR : Option Nat) (szToken : List Char)
        (poGeom filled : OGRGeometry) (e : Nat) (rest : List Char),
      readToken input = some szToken →
      wktGeometryFromToken szToken = some poGeom →
      importer poGeom input = (e, filled, rest) →
      e ≠ OGRERR_NONE →
      (createFromWkt readToken importer input poSR).err = e ∧
      (createFromWkt readToken importer input poSR).ret = none ∧
      (createFromWkt readToken importer input poSR).cursor = input) := by
  constructor
  · intro importer pabyData poSR nBytes poGeom filled e hb hm hcreate himp he
    rcases hm with hX | hN
    · have hnotN : ¬ pabyData 0 = wkbNDR := by
        rw [hX]
        simp [wkbXDR, wkbNDR]
      rw [if_neg hnotN] at hcreate
      rw [createFromWkb_xdr importer pabyData poSR nBytes hb hX]
      simp [mkWkbResult, createFromWkbAfterSniff, hcreate, himp, he]
    · rw [if_pos hN] at hcreate
      rw [createFromWkb_ndr importer pabyData poSR nBytes hb hN]
      simp [mkWkbResult, createFromWkbAfterSniff, hcreate, himp, he]
  · intro readToken importer input poSR szToken poGeom filled e rest
      ht hg himp he
    refine ⟨?_, ?_, ?_⟩ <;> simp [createFromWkt, ht, hg, himp, he]

/-- C2 witness: an NDR point buffer whose importer reports
OGRERR_CORRUPT_DATA, and a POINT text whose importer reports
OGRERR_NOT_ENOUGH_DATA; both decoders hand the status through with a NULL
output, and the text cursor stays put. -/
theorem decoders_failure_atomic_witness :
    ((createFromWkb (fun poGeom _ _ => (OGRERR_CORRUPT_DATA, poGeom))
      (fun _ => 1) none (-1)).err = OGRERR_CORRUPT_DATA ∧
    (createFromWkb (fun poGeom _ _ => (OGRERR_CORRUPT_DATA, poGeom))
      (fun _ => 1) none (-1)).ret = none) ∧
    ((createFromWkt (fun _ => some ['P', 'O', 'I', 'N', 'T'])
      (fun poGeom s => (OGRERR_NOT_ENOUGH_DATA, poGeom, s))
      ['P', 'O', 'I', 'N', 'T'] none).err = OGRERR_NOT_ENOUGH_DATA ∧
    (createFromWkt (fun _ => some ['P', 'O', 'I', 'N', 'T'])
      (fun poGeom s => (OGRERR_NOT_ENOUGH_DATA, poGeom, s))
      ['P', 'O', 'I', 'N', 'T'] none).ret = none ∧
    (createFromWkt (fun _ => some ['P', 'O', 'I', 'N', 'T'])
      (fun poGeom s => (OGRERR_NOT_ENOUGH_DATA, poGeom, s))
      ['P', 'O', 'I', 'N', 'T'] none).cursor = ['P', 'O', 'I', 'N', 'T']) := by
  constructor
  · exact decoders_failure_atomic.1
      (fun poGeom _ _ => (OGRERR_CORRUPT_DATA, poGeom)) (fun _ => 1) none (-1)
      (OGRGeometry.point false) (OGRGeometry.point false) OGRERR_CORRUPT_DATA
      (by decide) (Or.inr rfl) rfl rfl (by decide)
  · exact decoders_failure_atomic.2
      (fun _ => some ['P', 'O', 'I', 'N', 'T'])
      (fun poGeom s => (OGRERR_NOT_ENOUGH_DATA, poGeom, s))
      ['P', 'O', 'I', 'N', 'T'] none ['P', 'O', 'I', 'N', 'T']
      (OGRGeometry.point false) (OGRGeometry.point false)
      OGRERR_NOT_ENOUGH_DATA ['P', 'O', 'I', 'N', 'T']
      rfl rfl rfl (by decide)

/-- C9: on success createFromWkt sets the caller cursor exactly to the
position left by the delegated importFromWkt, adding nothing itself: the
returned record is the importer status, the filled geometry, the spatial
reference and the importer cursor, verbatim. -/
theorem createFromWkt_cursor (readToken : List Char → Option (List Char))
    (importer : WktImporter) (input : List Char) (poSR : Option Nat)
    (szToken : List Char) (poGeom filled : OGRGeometry) (rest : List Char)
    (ht : readToken input = some szToken)
    (hg : wktGeometryFromToken szToken = some poGeom)
    (hi : importer poGeom input = (OGRERR_NONE, filled, rest)) :
    createFromWkt readToken importer input poSR =
      ⟨OGRERR_NONE, some filled, poSR, rest⟩ := by
  simp [createFromWkt, ht, hg, hi]

/-- C9 witness: the text POINT (1 2) END with an importer that consumes
the first eleven characters leaves the cursor on the space before END. -/
theorem createFromWkt_cursor_witness :
    createFromWkt (fun _ => some ['P', 'O', 'I', 'N', 'T'])
        (fun poGeom s => (OGRERR_NONE, poGeom, s.drop 11))
        ['P', 'O', 'I', 'N', 'T', ' ', '(', '1', ' ', '2', ')', ' ', 'E', 'N', 'D']
        (some 4326) =
      ⟨OGRERR_NONE, some (OGRGeometry.point false), some 4326,
        [' ', 'E', 'N', 'D']⟩ :=
  createFromWkt_cursor (fun _ => some ['P', 'O', 'I', 'N', 'T'])
    (fun poGeom s => (OGRERR_NONE, poGeom, s.drop 11))
    ['P', 'O', 'I', 'N', 'T', ' ', '(', '1', ' ', '2', ')', ' ', 'E', 'N', 'D']
    (some 4326) ['P', 'O', 'I', 'N', 'T'] (OGRGeometry.point false)
    (OGRGeometry.point false) [' ', 'E', 'N', 'D'] rfl rfl rfl

/-- C7: a WKB tag flattening outside the seven supported kinds makes
createFromWkb return OGRERR_UNSUPPORTED_GEOMETRY_TYPE with a NULL output;
a WKT first token that matches none of the seven keywords case
insensitively makes createFromWkt do the same; and a token that does match
a keyword case insensitively selects a geometry rather than being
rejected. -/
theorem decoders_unsupported_type :
    (∀ (importer : WkbImporter) (pabyData : Nat → Nat) (poSR : Option Nat)
        (nBytes : Int),
      ¬ (nBytes < 5 ∧ nBytes ≠ -1) →
      (pabyData 0 = wkbXDR ∨ pabyData 0 = wkbNDR) →
      (wkbFlatten (pabyData (if pabyData 0 = wkbNDR then 1 else 4)) < 1 ∨
        7 < wkbFlatten (pabyData (if pabyData 0 = wkbNDR then 1 else 4))) →
      (createFromWkb importer pabyData poSR nBytes).err =
        OGRERR_UNSUPPORTED_GEOMETRY_TYPE ∧
      (createFromWkb importer pabyData poSR nBytes).ret = none) ∧
    (∀ (readToken : List Char → Option (List Char)) (importer : WktImporter)
        (input : List Char) (poSR : Option Nat) (szToken : List Char),
      readToken input = some szToken →
      (∀ kw ∈ supportedWktKeywords, EQUAL szToken kw = false) →
      (createFromWkt readToken importer input poSR).err =
        OGRERR_UNSUPPORTED_GEOMETRY_TYPE ∧
      (createFromWkt readToken importer input poSR).ret = none) ∧
    (∀ szToken kw : List Char, kw ∈ supportedWktKeywords →
      EQUAL szToken kw = true →
      (wktGeometryFromToken szToken).isSome = true) := by
  refine ⟨?_, ?_, ?_⟩
  · intro importer pabyData poSR nBytes hb hm hrange
    rcases hm with hX | hN
    · have hnotN : ¬ pabyData 0 = wkbNDR := by
        rw [hX]
        simp [wkbXDR, wkbNDR]
      rw [if_neg hnotN] at hrange
      have hnone := createGeometry_out_of_range _ hrange
      rw [createFromWkb_xdr importer pabyData poSR nBytes hb hX]
      simp [mkWkbResult, createFromWkbAfterSniff, hnone]
    · rw [if_pos hN] at hrange
      have hnone := createGeometry_out_of_range _ hrange
      rw [createFromWkb_ndr importer pabyData poSR nBytes hb hN]
      simp [mkWkbResult, createFromWkbAfterSniff, hnone]
  · intro readToken importer input poSR szToken ht hk
    have h1 := hk _ (show ['P', 'O', 'I', 'N', 'T'] ∈ supportedWktKeywords by
      simp [supportedWktKeywords])
    have h2 := hk _ (show ['L', 'I', 'N', 'E', 'S', 'T', 'R', 'I', 'N', 'G'] ∈
      supportedWktKeywords by simp [supportedWktKeywords])
    have h3 := hk _ (show ['P', 'O', 'L', 'Y', 'G', 'O', 'N'] ∈
      supportedWktKeywords by simp [supportedWktKeywords])
    have h4 := hk _ (show ['G', 'E', 'O', 'M', 'E', 'T', 'R', 'Y', 'C', 'O',
      'L', 'L', 'E', 'C', 'T', 'I', 'O', 'N'] ∈ supportedWktKeywords by
      simp [supportedWktKeywords])
    have h5 := hk _ (show ['M', 'U', 'L', 'T', 'I', 'P', 'O', 'L', 'Y', 'G',
      'O', 'N'] ∈ supportedWktKeywords by simp [supportedWktKeywords])
    have h6 := hk _ (show ['M', 'U', 'L', 'T', 'I', 'P', 'O', 'I', 'N', 'T'] ∈
      supportedWktKeywords by simp [supportedWktKeywords])
    have h7 := hk _ (show ['M', 'U', 'L', 'T', 'I', 'L', 'I', 'N', 'E', 'S',
      'T', 'R', 'I', 'N', 'G'] ∈ supportedWktKeywords by
      simp [supportedWktKeywords])
    have hnone : wktGeometryFromToken szToken = none := by
      simp [wktGeometryFromToken, h1, h2, h3, h4, h5, h6, h7]
    refine ⟨?_, ?_⟩ <;> simp [createFromWkt, ht, hnone]
  · intro szToken kw hkw heq
    simp only [supportedWktKeywords, List.mem_cons, List.not_mem_nil,
      or_false] at hkw
    rcases hkw with h | h | h | h | h | h | h <;> subst h <;>
      (simp only [wktGeometryFromToken]; split_ifs <;> simp_all)

/-- C7 witness: an XDR buffer with tag byte 8 draws
OGRERR_UNSUPPORTED_GEOMETRY_TYPE from createFromWkb, the token FOO draws
it from createFromWkt, and the lowercase token point is matched. -/
theorem decoders_unsupported_type_witness :
    ((createFromWkb (fun poGeom _ _ => (OGRERR_NONE, poGeom))
      (fun n => if n = 0 then 0 else 8) none 9).err =
        OGRERR_UNSUPPORTED_GEOMETRY_TYPE ∧
    (createFromWkb (fun poGeom _ _ => (OGRERR_NONE, poGeom))
      (fun n => if n = 0 then 0 else 8) none 9).ret = none) ∧
    ((createFromWkt (fun _ => some ['F', 'O', 'O'])
      (fun poGeom s => (OGRERR_NONE, poGeom, s)) ['F', 'O', 'O'] none).err =
        OGRERR_UNSUPPORTED_GEOMETRY_TYPE ∧
    (createFromWkt (fun _ => some ['F', 'O', 'O'])
      (fun poGeom s => (OGRERR_NONE, poGeom, s)) ['F', 'O', 'O'] none).ret =
        none) ∧
    (wktGeometryFromToken ['p', 'o', 'i', 'n', 't']).isSome = true := by
  refine ⟨?_, ?_, ?_⟩
  · exact decoders_unsupported_type.1
      (fun poGeom _ _ => (OGRERR_NONE, poGeom))
      (fun n => if n = 0 then 0 else 8) none 9
      (by decide) (Or.inl rfl) (by decide)
  · exact decoders_unsupported_type.2.1 (fun _ => some ['F', 'O', 'O'])
      (fun poGeom s => (OGRERR_NONE, poGeom, s)) ['F', 'O', 'O'] none
      ['F', 'O', 'O'] rfl (by decide)
  · exact decoders_unsupported_type.2.2 ['p', 'o', 'i', 'n', 't']
      ['P', 'O', 'I', 'N', 'T'] (by simp [supportedWktKeywords]) (by decide)

end OGRFactory
